import Mathlib

/-!
Verification of the metrics core of github-pr-metrics.

The embedding models the Go sources: the internal/metrics statistics
utilities (calculateMedianInt, calculateMedianFloat, getStartOfISOWeek),
the per-PR metrics calculator (CalculatePRMetrics and its helpers), and
the weekly/monthly aggregated metrics calculator.

Modelling conventions: a time.Time instant is a rational number of
fractional hours since 1970-01-01 00:00 UTC (the single location in play
is UTC, so no zone arithmetic arises), and Sub(..).Hours() is plain
subtraction.  float64 values are modelled as rationals; the program only
ever adds, subtracts, divides and compares them.  Go slices are Lean
lists; sort.Float64s and sort.Slice over numbers are modelled by
List.insertionSort, since for numeric values the ascending rearrangement
is unique and any correct sort denotes the same function.  Because
sort.Float64s sorts in place, the median functions return the final state
of their argument slice alongside the value.  The GitHub API calls made
inside CalculatePRMetrics are modelled by passing the outcome of each call
(an Except value) as input data.
-/

/-- An instant in time: fractional hours since 1970-01-01 00:00 UTC. -/
abbrev GoTime := ℚ

/-- The civil day (days since 1970-01-01) an instant falls on. -/
def goDays (t : GoTime) : Int := ⌊t / 24⌋

/-- Midnight at the start of the given civil day, as an instant. -/
def dayStart (d : Int) : GoTime := 24 * (d : ℚ)

/-- Go `time.Time.Weekday`: 0 = Sunday, ..., 6 = Saturday.
1970-01-01 (day 0) was a Thursday (= 4). -/
def goWeekday (t : GoTime) : Int := (goDays t + 4) % 7

/-- Go `isLeap`: Gregorian leap-year test. -/
abbrev goIsLeap (y : Int) : Prop := y % 4 = 0 ∧ (y % 100 ≠ 0 ∨ y % 400 = 0)

/-- Go `daysBefore`: cumulative day count before each month of a non-leap
year (index 0..12). -/
def daysBefore (m : Int) : Int :=
  if m ≤ 0 then 0
  else if m = 1 then 31
  else if m = 2 then 59
  else if m = 3 then 90
  else if m = 4 then 120
  else if m = 5 then 151
  else if m = 6 then 181
  else if m = 7 then 212
  else if m = 8 then 243
  else if m = 9 then 273
  else if m = 10 then 304
  else if m = 11 then 334
  else 365

/-- Go `daysSinceEpoch` at day granularity: days from January 1 of year 1 to
January 1 of the given year (400/100/4-year cycle decomposition). -/
def daysSinceYear1 (year : Int) : Int :=
  let y0 := year - 1
  let n400 := y0 / 400
  let y1 := y0 - 400 * n400
  let n100 := y1 / 100
  let y2 := y1 - 100 * n100
  let n4 := y2 / 4
  let y3 := y2 - 4 * n4
  146097 * n400 + 36524 * n100 + 1461 * n4 + 365 * y3

/-- First half of Go `absDate`: the (year, 0-based day of year) of a day
number (days since 1970-01-01), via Go's cascade of 400-, 100-, 4- and
1-year cycles with the two `n -= n >> 2` clamps. -/
def absYearYday (z : Int) : Int × Int :=
  let d0 := z + 719162
  let n400 := d0 / 146097
  let d1 := d0 - 146097 * n400
  let q100 := d1 / 36524
  let n100 := q100 - q100 / 4
  let d2 := d1 - 36524 * n100
  let n4 := d2 / 1461
  let d3 := d2 - 1461 * n4
  let q1 := d3 / 365
  let n1 := q1 - q1 / 4
  (1 + 400 * n400 + 100 * n100 + 4 * n4 + n1, d3 - 365 * n1)

/-- Second half of Go `absDate`: (month, day) from the year and the 0-based
day of year, with Go's leap-February handling and `daysBefore` lookup. -/
def absMonthDay (year yday : Int) : Int × Int :=
  if goIsLeap year ∧ yday = 59 then (2, 29)
  else
    let day := if goIsLeap year ∧ 59 < yday then yday - 1 else yday
    let m0 := day / 31
    if daysBefore (m0 + 1) ≤ day then (m0 + 2, day - daysBefore (m0 + 1) + 1)
    else (m0 + 1, day - daysBefore m0 + 1)

/-- Go `absDate` (full): the civil (year, month, day) of a day number. -/
def absDateDays (z : Int) : Int × Int × Int :=
  ((absYearYday z).1, absMonthDay (absYearYday z).1 (absYearYday z).2)

/-- Go `time.Date(y, m, d, 0,0,0,0, utc)` at day granularity: the month is
normalized into 1..12 with year carry, then Go adds the days before the
month, a leap correction and the day offset. -/
def goDateDays (y m d : Int) : Int :=
  let yy := y + (m - 1) / 12
  let mm := (m - 1) % 12 + 1
  daysSinceYear1 yy + daysBefore (mm - 1) +
    (if goIsLeap yy ∧ 3 ≤ mm then 1 else 0) + (d - 1) - 719162

/-- The Go zero `time.Time` (January 1, year 1, 00:00:00 UTC) as an instant;
`IsZero` in the sources is equality with this instant.  Written as the
hour literal 24 * (-719162); `goZeroTime_eq` below checks it against the
calendar functions. -/
def goZeroTime : GoTime := -17259888

/-- getStartOfISOWeek (README.md statistics utilities): the Monday 00:00:00
of the ISO week containing the instant. -/
def getStartOfISOWeek (date : GoTime) : GoTime :=
  let weekday := goWeekday date
  let isoWeekday := if weekday = 0 then 7 else weekday
  let daysToSubtract := isoWeekday - 1
  dayStart (goDays date - daysToSubtract)

/-- Go `time.Time.ISOWeek()`: the ISO-8601 (year, week) pair of the instant.
Go shifts to the Thursday of the instant's ISO week (`d := Thursday -
weekday; if d == 4 then d = -3`), then reads that day's calendar year and
0-based day of year: week = yday/7 + 1. -/
def goISOWeek (t : GoTime) : Int × Int :=
  let d := 4 - goWeekday t
  let dd := if d = 4 then -3 else d
  let thursday := goDays t + dd
  let p := absYearYday thursday
  (p.1, p.2 / 7 + 1)

/-- calculateMedianFloat (README.md statistics utilities).  `sort.Float64s`
sorts the argument slice in place, so alongside the median the model returns
the final state of the argument slice: its ascending rearrangement. -/
def calculateMedianFloat (values : List ℚ) : ℚ × List ℚ :=
  if values.length = 0 then (0, values)
  else
    let sorted := List.insertionSort (· ≤ ·) values
    let length := sorted.length
    if length % 2 = 0 then
      ((sorted.getD (length / 2 - 1) 0 + sorted.getD (length / 2) 0) / 2, sorted)
    else
      (sorted.getD (length / 2) 0, sorted)

/-- calculateMedianInt (README.md statistics utilities).  Returns the median
together with the final state of the argument slice: the function copies the
values into a fresh float slice, so the argument is returned unchanged. -/
def calculateMedianInt (values : List Int) : ℚ × List Int :=
  if values.length = 0 then (0, values)
  else
    let floatValues := values.map (fun v => (v : ℚ))
    ((calculateMedianFloat floatValues).1, values)

/-- A `github.RepositoryCommit`: the nested optional
`Commit.Author.Date` chain is collapsed into one optional timestamp
(the code only ever reads the date behind the three nil checks). -/
structure GoCommit where
  date : Option GoTime
deriving DecidableEq

/-- A `github.PullRequestComment`: only `CreatedAt` is consumed. -/
structure GoComment where
  createdAt : GoTime
deriving DecidableEq

/-- A `github.PullRequestReview`: only `State` and `SubmittedAt` are
consumed. -/
structure GoReview where
  state : String
  submittedAt : GoTime
deriving DecidableEq

/-- The fields of a `github.PullRequest` consumed by `CalculatePRMetrics`.
`GetMergedAt` yields the zero time when the PR is not merged, so `mergedAt`
is a plain instant with `goZeroTime` as the not-merged sentinel. -/
structure GoPullRequest where
  number : Int
  title : String
  author : String
  milestone : Option String
  createdAt : GoTime
  mergedAt : GoTime
  state : String
deriving DecidableEq

/-- The outcomes of the four API calls made while computing one PR
(GetPRDetails, GetPRCommits, GetPRComments, GetPRReviews); `details`
carries (additions, deletions, changedFiles). -/
structure FetchResults where
  details : Except String (Int × Int × Int)
  commits : Except String (List GoCommit)
  comments : Except String (List GoComment)
  reviews : Except String (List GoReview)

/-- api.PRMetrics (internal/api/models.go), defaults are Go zero values. -/
structure PRMetrics where
  Number : Int := 0
  Title : String := ""
  Author : String := ""
  Milestone : String := ""
  CreatedAt : GoTime := goZeroTime
  MergedAt : GoTime := goZeroTime
  State : String := ""
  CommitCount : Int := 0
  FirstCommitAt : GoTime := goZeroTime
  LastCommitAt : GoTime := goZeroTime
  FirstCommitToCreateHours : ℚ := 0
  CreateToLastCommitHours : ℚ := 0
  CommitCountDuringPR : Int := 0
  FirstCommitToMergeHours : ℚ := 0
  LastCommitToMergeHours : ℚ := 0
  CommentCount : Int := 0
  FirstCommentAt : GoTime := goZeroTime
  CreatedToFirstCommentHours : ℚ := 0
  ReviewCount : Int := 0
  Additions : Int := 0
  Deletions : Int := 0
  ChangedFiles : Int := 0
  ApprovalCount : Int := 0
  TimeToApprovalHours : ℚ := 0
  TotalPRLifetimeHours : ℚ := 0
  MaxNoCommentPeriodHours : ℚ := 0
  MaxNoCommitPeriodHours : ℚ := 0
  MaxNoActivityPeriodHours : ℚ := 0
deriving DecidableEq

/-- CommitMetricsResult (per-PR calculator). -/
structure CommitMetricsResult where
  CommitCount : Int := 0
  FirstCommitAt : GoTime := goZeroTime
  LastCommitAt : GoTime := goZeroTime
  CommitCountDuringPR : Int := 0
deriving DecidableEq

/-- calculateCommitMetrics: counts, first/last commit timestamps (with the
nil-date guards defaulting to the zero time) and the count of commits not
before PR creation. -/
def calculateCommitMetrics (commits : List GoCommit) (createdAt : GoTime) :
    CommitMetricsResult :=
  match commits with
  | [] => {}
  | firstCommit :: _ =>
    { CommitCount := (commits.length : Int)
      FirstCommitAt := firstCommit.date.getD goZeroTime
      LastCommitAt := ((commits.getLast?).map (fun c => c.date.getD goZeroTime)).getD goZeroTime
      CommitCountDuringPR :=
        ((commits.filter (fun c =>
          match c.date with
          | some commitTime => decide (¬ commitTime < createdAt)
          | none => false)).length : Int) }

/-- CommentMetricsResult (per-PR calculator). -/
structure CommentMetricsResult where
  CommentCount : Int := 0
  FirstCommentAt : GoTime := goZeroTime
deriving DecidableEq

/-- calculateCommentMetrics: count and first-comment timestamp. -/
def calculateCommentMetrics (comments : List GoComment) : CommentMetricsResult :=
  match comments with
  | [] => {}
  | firstComment :: _ =>
    { CommentCount := (comments.length : Int)
      FirstCommentAt := firstComment.createdAt }

/-- ReviewMetricsResult (per-PR calculator). -/
structure ReviewMetricsResult where
  ReviewCount : Int := 0
  ApprovalCount : Int := 0
  FirstApprovalAt : GoTime := goZeroTime
deriving DecidableEq

/-- The review scan loop of calculateReviewMetrics: counts APPROVED reviews
and tracks the earliest approval submission time (`IsZero` or earlier). -/
def reviewScan : List GoReview → Int → GoTime → Int × GoTime
  | [], approvalCount, firstApprovalAt => (approvalCount, firstApprovalAt)
  | review :: rest, approvalCount, firstApprovalAt =>
    if review.state = "APPROVED" then
      reviewScan rest (approvalCount + 1)
        (if firstApprovalAt = goZeroTime ∨ review.submittedAt < firstApprovalAt then
          review.submittedAt
        else firstApprovalAt)
    else reviewScan rest approvalCount firstApprovalAt

/-- calculateReviewMetrics: fetches reviews (outcome passed as data) and
scans them; a fetch error is propagated to the caller. -/
def calculateReviewMetrics (fetched : Except String (List GoReview)) :
    Except String ReviewMetricsResult :=
  match fetched with
  | .error e => .error e
  | .ok reviews =>
    .ok { ReviewCount := (reviews.length : Int)
          ApprovalCount := (reviewScan reviews 0 goZeroTime).1
          FirstApprovalAt := (reviewScan reviews 0 goZeroTime).2 }

/-- TimeMetricsResult (per-PR calculator). -/
structure TimeMetricsResult where
  FirstCommitToCreateHours : ℚ := 0
  CreateToLastCommitHours : ℚ := 0
  FirstCommitToMergeHours : ℚ := 0
  LastCommitToMergeHours : ℚ := 0
  TotalPRLifetimeHours : ℚ := 0
  CreatedToFirstCommentHours : ℚ := 0
deriving DecidableEq

/-- calculateTimeMetrics: the six duration fields, each computed only when
its guarding timestamps are not the zero time (else left at 0). -/
def calculateTimeMetrics (createdAt mergedAt firstCommitAt lastCommitAt
    firstCommentAt : GoTime) : TimeMetricsResult :=
  { FirstCommitToCreateHours :=
      if ¬ firstCommitAt = goZeroTime then createdAt - firstCommitAt else 0
    CreateToLastCommitHours :=
      if ¬ lastCommitAt = goZeroTime then lastCommitAt - createdAt else 0
    FirstCommitToMergeHours :=
      if ¬ mergedAt = goZeroTime ∧ ¬ firstCommitAt = goZeroTime then
        mergedAt - firstCommitAt
      else 0
    LastCommitToMergeHours :=
      if ¬ mergedAt = goZeroTime ∧ ¬ lastCommitAt = goZeroTime then
        mergedAt - lastCommitAt
      else 0
    TotalPRLifetimeHours :=
      if ¬ mergedAt = goZeroTime then mergedAt - createdAt else 0
    CreatedToFirstCommentHours :=
      if ¬ firstCommentAt = goZeroTime then firstCommentAt - createdAt else 0 }

/-- WaitingPeriodsResult (per-PR calculator). -/
structure WaitingPeriodsResult where
  MaxNoActivityPeriodHours : ℚ := 0
  MaxNoCommentPeriodHours : ℚ := 0
  MaxNoCommitPeriodHours : ℚ := 0
deriving DecidableEq

/-- The consecutive-gap maximum loops of calculateWaitingPeriods: fold over
a sorted list keeping the largest difference of consecutive entries. -/
def maxGapScan (m : ℚ) : List ℚ → ℚ
  | a :: b :: rest => maxGapScan (if b - a > m then b - a else m) (b :: rest)
  | _ => m

/-- calculateWaitingPeriods: sorts the combined commit+comment timestamps,
the comment timestamps and the commit timestamps (commits contribute only
when their optional date is present), and takes each maximum consecutive
gap.  Go sorts slices of numbers in place with sort.Slice; the ascending
rearrangement of a numeric list is unique, so `insertionSort` denotes it. -/
def calculateWaitingPeriods (commits : List GoCommit) (comments : List GoComment) :
    WaitingPeriodsResult :=
  let commitTimesRaw := commits.filterMap (fun c => c.date)
  let commentTimesRaw := comments.map (fun c => c.createdAt)
  let allEvents := List.insertionSort (· ≤ ·) (commitTimesRaw ++ commentTimesRaw)
  let commitTimes := List.insertionSort (· ≤ ·) commitTimesRaw
  let commentTimes := List.insertionSort (· ≤ ·) commentTimesRaw
  { MaxNoActivityPeriodHours := maxGapScan 0 allEvents
    MaxNoCommentPeriodHours := maxGapScan 0 commentTimes
    MaxNoCommitPeriodHours := maxGapScan 0 commitTimes }

/-- CalculatePRMetrics (per-PR calculator, control flow of part_000 lines
27-117): details or commits fetch errors abort the PR; comments or reviews
fetch errors degrade to zero-value fields (a failed comments fetch also
leaves the gap fields at zero through the `len(comments) > 0` guard). -/
def CalculatePRMetrics (pr : GoPullRequest) (fetched : FetchResults) :
    Except String PRMetrics :=
  match fetched.details with
  | .error e => .error e
  | .ok (additions, deletions, changedFiles) =>
    match fetched.commits with
    | .error e => .error e
    | .ok commits =>
      let commitMetrics := calculateCommitMetrics commits pr.createdAt
      let comments := match fetched.comments with
        | .ok cs => cs
        | .error _ => []
      let commentMetrics := calculateCommentMetrics comments
      let reviewPart : Int × Int × ℚ :=
        match calculateReviewMetrics fetched.reviews with
        | .error _ => (0, 0, 0)
        | .ok reviewMetrics =>
          (reviewMetrics.ReviewCount, reviewMetrics.ApprovalCount,
            if ¬ reviewMetrics.FirstApprovalAt = goZeroTime then
              reviewMetrics.FirstApprovalAt - pr.createdAt
            else 0)
      let timeMetrics := calculateTimeMetrics pr.createdAt pr.mergedAt
        commitMetrics.FirstCommitAt commitMetrics.LastCommitAt
        commentMetrics.FirstCommentAt
      let waiting :=
        if 0 < commits.length ∧ 0 < comments.length then
          calculateWaitingPeriods commits comments
        else {}
      .ok {
        Number := pr.number
        Title := pr.title
        Author := pr.author
        Milestone := pr.milestone.getD ""
        CreatedAt := pr.createdAt
        MergedAt := pr.mergedAt
        State := pr.state
        Additions := additions
        Deletions := deletions
        ChangedFiles := changedFiles
        CommitCount := commitMetrics.CommitCount
        FirstCommitAt := commitMetrics.FirstCommitAt
        LastCommitAt := commitMetrics.LastCommitAt
        CommitCountDuringPR := commitMetrics.CommitCountDuringPR
        CommentCount := commentMetrics.CommentCount
        FirstCommentAt := commentMetrics.FirstCommentAt
        ReviewCount := reviewPart.1
        ApprovalCount := reviewPart.2.1
        TimeToApprovalHours := reviewPart.2.2
        FirstCommitToCreateHours := timeMetrics.FirstCommitToCreateHours
        CreateToLastCommitHours := timeMetrics.CreateToLastCommitHours
        FirstCommitToMergeHours := timeMetrics.FirstCommitToMergeHours
        LastCommitToMergeHours := timeMetrics.LastCommitToMergeHours
        TotalPRLifetimeHours := timeMetrics.TotalPRLifetimeHours
        CreatedToFirstCommentHours := timeMetrics.CreatedToFirstCommentHours
        MaxNoActivityPeriodHours := waiting.MaxNoActivityPeriodHours
        MaxNoCommentPeriodHours := waiting.MaxNoCommentPeriodHours
        MaxNoCommitPeriodHours := waiting.MaxNoCommitPeriodHours }

/-- CalculateAllPRMetrics (batch loop): computes each PR independently; a
failed PR is logged and skipped (`continue`), the loop never aborts. -/
def CalculateAllPRMetrics : List (GoPullRequest × FetchResults) → List PRMetrics
  | [] => []
  | (pr, fetched) :: rest =>
    match CalculatePRMetrics pr fetched with
    | .error _ => CalculateAllPRMetrics rest
    | .ok m => m :: CalculateAllPRMetrics rest

/-- api.AggregatedMetrics (internal/api/models.go).  The Go `Period` string
is `fmt.Sprintf("%d-W%02d", year, week)` resp. `fmt.Sprintf("%d-%02d",
year, month)`; both are injective images of the underlying (year, week) and
(year, month) pairs, which the model stores directly. -/
structure AggregatedMetrics where
  Period : Int × Int := (0, 0)
  StartDate : GoTime := goZeroTime
  EndDate : GoTime := goZeroTime
  PRCount : Int := 0
  AvgCommitCount : ℚ := 0
  AvgCommentCount : ℚ := 0
  AvgReviewCount : ℚ := 0
  AvgApprovalCount : ℚ := 0
  AvgAdditions : ℚ := 0
  AvgDeletions : ℚ := 0
  AvgChangedFiles : ℚ := 0
  AvgFirstCommitToCreateHours : ℚ := 0
  AvgCreateToLastCommitHours : ℚ := 0
  AvgCommitCountDuringPR : ℚ := 0
  AvgFirstCommitToMergeHours : ℚ := 0
  AvgLastCommitToMergeHours : ℚ := 0
  AvgCreatedToFirstCommentHours : ℚ := 0
  AvgTimeToApprovalHours : ℚ := 0
  AvgTotalPRLifetimeHours : ℚ := 0
  AvgMaxNoCommentPeriodHours : ℚ := 0
  AvgMaxNoCommitPeriodHours : ℚ := 0
  AvgMaxNoActivityPeriodHours : ℚ := 0
  MedianCommitCount : ℚ := 0
  MedianCommentCount : ℚ := 0
  MedianReviewCount : ℚ := 0
  MedianApprovalCount : ℚ := 0
  MedianAdditions : ℚ := 0
  MedianDeletions : ℚ := 0
  MedianChangedFiles : ℚ := 0
  MedianFirstCommitToCreateHours : ℚ := 0
  MedianCreateToLastCommitHours : ℚ := 0
  MedianCommitCountDuringPR : ℚ := 0
  MedianFirstCommitToMergeHours : ℚ := 0
  MedianLastCommitToMergeHours : ℚ := 0
  MedianCreatedToFirstCommentHours : ℚ := 0
  MedianTimeToApprovalHours : ℚ := 0
  MedianTotalPRLifetimeHours : ℚ := 0
  MedianMaxNoCommentPeriodHours : ℚ := 0
  MedianMaxNoCommitPeriodHours : ℚ := 0
  MedianMaxNoActivityPeriodHours : ℚ := 0
deriving DecidableEq

/-- The per-PR values of a duration/gap field collected by the accumulation
loop: one slice entry and one count/sum contribution per PR whose value is
strictly positive, in input order. -/
def positiveVals (f : PRMetrics → ℚ) (prs : List PRMetrics) : List ℚ :=
  (prs.map f).filter (fun v => decide (0 < v))

/-- calculateAggregatedMetrics (README.md lines 242-467).  Each Go running
sum / inclusion counter / value slice of the single accumulation loop is
written as the corresponding list expression over `prs` in input order:
`sumX` is the sum of the collected slice, `countX` its length.  Count-like
fields collect every PR; duration/gap fields collect only strictly positive
values, and their average/median assignments stay at the zero default when
the inclusion count is zero. -/
def calculateAggregatedMetrics (period : Int × Int) (startDate endDate : GoTime)
    (prs : List PRMetrics) : AggregatedMetrics :=
  let prCount := (prs.length : Int)
  if prs.length = 0 then
    { Period := period, StartDate := startDate, EndDate := endDate, PRCount := 0 }
  else
    let commitCounts : List Int := prs.map (fun pr => pr.CommitCount)
    let commentCounts : List Int := prs.map (fun pr => pr.CommentCount)
    let reviewCounts : List Int := prs.map (fun pr => pr.ReviewCount)
    let approvalCounts : List Int := prs.map (fun pr => pr.ApprovalCount)
    let additions : List Int := prs.map (fun pr => pr.Additions)
    let deletions : List Int := prs.map (fun pr => pr.Deletions)
    let changedFiles : List Int := prs.map (fun pr => pr.ChangedFiles)
    let commitCountsDuringPR : List Int := prs.map (fun pr => pr.CommitCountDuringPR)
    let firstCommitToCreateHours := positiveVals (fun pr => pr.FirstCommitToCreateHours) prs
    let createToLastCommitHours := positiveVals (fun pr => pr.CreateToLastCommitHours) prs
    let firstCommitToMergeHours := positiveVals (fun pr => pr.FirstCommitToMergeHours) prs
    let lastCommitToMergeHours := positiveVals (fun pr => pr.LastCommitToMergeHours) prs
    let createdToFirstCommentHours := positiveVals (fun pr => pr.CreatedToFirstCommentHours) prs
    let timeToApprovalHours := positiveVals (fun pr => pr.TimeToApprovalHours) prs
    let totalPRLifetimeHours := positiveVals (fun pr => pr.TotalPRLifetimeHours) prs
    let maxNoCommentPeriodHours := positiveVals (fun pr => pr.MaxNoCommentPeriodHours) prs
    let maxNoCommitPeriodHours := positiveVals (fun pr => pr.MaxNoCommitPeriodHours) prs
    let maxNoActivityPeriodHours := positiveVals (fun pr => pr.MaxNoActivityPeriodHours) prs
    { Period := period
      StartDate := startDate
      EndDate := endDate
      PRCount := prCount
      AvgCommitCount := (commitCounts.sum : ℚ) / (prCount : ℚ)
      AvgCommentCount := (commentCounts.sum : ℚ) / (prCount : ℚ)
      AvgReviewCount := (reviewCounts.sum : ℚ) / (prCount : ℚ)
      AvgApprovalCount := (approvalCounts.sum : ℚ) / (prCount : ℚ)
      AvgAdditions := (additions.sum : ℚ) / (prCount : ℚ)
      AvgDeletions := (deletions.sum : ℚ) / (prCount : ℚ)
      AvgChangedFiles := (changedFiles.sum : ℚ) / (prCount : ℚ)
      AvgCommitCountDuringPR := (commitCountsDuringPR.sum : ℚ) / (prCount : ℚ)
      MedianCommitCount := (calculateMedianInt commitCounts).1
      MedianCommentCount := (calculateMedianInt commentCounts).1
      MedianReviewCount := (calculateMedianInt reviewCounts).1
      MedianApprovalCount := (calculateMedianInt approvalCounts).1
      MedianAdditions := (calculateMedianInt additions).1
      MedianDeletions := (calculateMedianInt deletions).1
      MedianChangedFiles := (calculateMedianInt changedFiles).1
      MedianCommitCountDuringPR := (calculateMedianInt commitCountsDuringPR).1
      AvgFirstCommitToCreateHours :=
        if 0 < firstCommitToCreateHours.length then
          firstCommitToCreateHours.sum / (firstCommitToCreateHours.length : ℚ)
        else 0
      MedianFirstCommitToCreateHours :=
        if 0 < firstCommitToCreateHours.length then
          (calculateMedianFloat firstCommitToCreateHours).1
        else 0
      AvgCreateToLastCommitHours :=
        if 0 < createToLastCommitHours.length then
          createToLastCommitHours.sum / (createToLastCommitHours.length : ℚ)
        else 0
      MedianCreateToLastCommitHours :=
        if 0 < createToLastCommitHours.length then
          (calculateMedianFloat createToLastCommitHours).1
        else 0
      AvgFirstCommitToMergeHours :=
        if 0 < firstCommitToMergeHours.length then
          firstCommitToMergeHours.sum / (firstCommitToMergeHours.length : ℚ)
        else 0
      MedianFirstCommitToMergeHours :=
        if 0 < firstCommitToMergeHours.length then
          (calculateMedianFloat firstCommitToMergeHours).1
        else 0
      AvgLastCommitToMergeHours :=
        if 0 < lastCommitToMergeHours.length then
          lastCommitToMergeHours.sum / (lastCommitToMergeHours.length : ℚ)
        else 0
      MedianLastCommitToMergeHours :=
        if 0 < lastCommitToMergeHours.length then
          (calculateMedianFloat lastCommitToMergeHours).1
        else 0
      AvgCreatedToFirstCommentHours :=
        if 0 < createdToFirstCommentHours.length then
          createdToFirstCommentHours.sum / (createdToFirstCommentHours.length : ℚ)
        else 0
      MedianCreatedToFirstCommentHours :=
        if 0 < createdToFirstCommentHours.length then
          (calculateMedianFloat createdToFirstCommentHours).1
        else 0
      AvgTimeToApprovalHours :=
        if 0 < timeToApprovalHours.length then
          timeToApprovalHours.sum / (timeToApprovalHours.length : ℚ)
        else 0
      MedianTimeToApprovalHours :=
        if 0 < timeToApprovalHours.length then
          (calculateMedianFloat timeToApprovalHours).1
        else 0
      AvgTotalPRLifetimeHours :=
        if 0 < totalPRLifetimeHours.length then
          totalPRLifetimeHours.sum / (totalPRLifetimeHours.length : ℚ)
        else 0
      MedianTotalPRLifetimeHours :=
        if 0 < totalPRLifetimeHours.length then
          (calculateMedianFloat totalPRLifetimeHours).1
        else 0
      AvgMaxNoCommentPeriodHours :=
        if 0 < maxNoCommentPeriodHours.length then
          maxNoCommentPeriodHours.sum / (maxNoCommentPeriodHours.length : ℚ)
        else 0
      MedianMaxNoCommentPeriodHours :=
        if 0 < maxNoCommentPeriodHours.length then
          (calculateMedianFloat maxNoCommentPeriodHours).1
        else 0
      AvgMaxNoCommitPeriodHours :=
        if 0 < maxNoCommitPeriodHours.length then
          maxNoCommitPeriodHours.sum / (maxNoCommitPeriodHours.length : ℚ)
        else 0
      MedianMaxNoCommitPeriodHours :=
        if 0 < maxNoCommitPeriodHours.length then
          (calculateMedianFloat maxNoCommitPeriodHours).1
        else 0
      AvgMaxNoActivityPeriodHours :=
        if 0 < maxNoActivityPeriodHours.length then
          maxNoActivityPeriodHours.sum / (maxNoActivityPeriodHours.length : ℚ)
        else 0
      MedianMaxNoActivityPeriodHours :=
        if 0 < maxNoActivityPeriodHours.length then
          (calculateMedianFloat maxNoActivityPeriodHours).1
        else 0 }

/-- One entry of the grouping maps `weeklyPRs` / `monthlyPRs` together with
its entries of `weeklyStartDates` / `weeklyEndDates` (the start and end were
stored when the key was first seen). -/
structure PeriodBucket where
  key : Int × Int
  startDate : GoTime
  endDate : GoTime
  prs : List PRMetrics
deriving DecidableEq

/-- Appending one PR to its key's bucket: a new key allocates a bucket and
records the start/end dates; an existing key keeps its recorded dates. -/
def insertBucket (key : Int × Int) (s e : GoTime) (pr : PRMetrics) :
    List PeriodBucket → List PeriodBucket
  | [] => [⟨key, s, e, [pr]⟩]
  | b :: bs =>
    if b.key = key then ⟨b.key, b.startDate, b.endDate, b.prs ++ [pr]⟩ :: bs
    else b :: insertBucket key s e pr bs

/-- The grouping loop shared by the weekly and the monthly aggregator:
skip unmerged PRs (zero merge time), append every other PR to the bucket of
its merge-period key. -/
def groupByPeriod (key : GoTime → Int × Int) (startD endD : GoTime → GoTime)
    (prMetrics : List PRMetrics) : List PeriodBucket :=
  prMetrics.foldl (fun acc pr =>
    if pr.MergedAt = goZeroTime then acc
    else insertBucket (key pr.MergedAt) (startD pr.MergedAt) (endD pr.MergedAt) pr acc) []

/-- Weekly bucket start: getStartOfISOWeek of the merge time. -/
def weekStartDate (t : GoTime) : GoTime := getStartOfISOWeek t

/-- Weekly bucket end: `startOfWeek.AddDate(0, 0, 6)`; in the UTC location a
six-day shift is exactly 144 hours. -/
def weekEndDate (t : GoTime) : GoTime := getStartOfISOWeek t + 24 * 6

/-- Monthly key: the (year, month) of `pr.MergedAt.Date()`. -/
def monthKey (t : GoTime) : Int × Int :=
  ((absDateDays (goDays t)).1, (absDateDays (goDays t)).2.1)

/-- Monthly bucket start: `time.Date(year, month, 1, 0, 0, 0, 0, loc)`. -/
def monthStartDate (t : GoTime) : GoTime :=
  dayStart (goDateDays (monthKey t).1 (monthKey t).2 1)

/-- Monthly bucket end: `startOfMonth.AddDate(0, 1, -1)`; Go re-reads the
civil date (year, month, 1) of the first of the month and builds
`Date(year, month+1, 0)`, the day before the first of the next month. -/
def monthEndDate (t : GoTime) : GoTime :=
  dayStart (goDateDays (monthKey t).1 ((monthKey t).2 + 1) 1 - 1)

/-- Ordering of period keys; on the program's key values (weeks 1..53 and
months 1..12, rendered with %02d) this is exactly the lexical order of the
Go Period strings used by the final sort.Slice. -/
abbrev periodLe (a b : Int × Int) : Prop := a.1 < b.1 ∨ (a.1 = b.1 ∧ a.2 ≤ b.2)

/-- CalculateWeeklyAggregatedMetrics: group merged PRs by ISO-week key,
summarize each bucket, sort by period. -/
def CalculateWeeklyAggregatedMetrics (prMetrics : List PRMetrics) :
    List AggregatedMetrics :=
  List.insertionSort (fun a b => periodLe a.Period b.Period)
    ((groupByPeriod goISOWeek weekStartDate weekEndDate prMetrics).map
      (fun b => calculateAggregatedMetrics b.key b.startDate b.endDate b.prs))

/-- CalculateMonthlyAggregatedMetrics: group merged PRs by (year, month)
key, summarize each bucket, sort by period. -/
def CalculateMonthlyAggregatedMetrics (prMetrics : List PRMetrics) :
    List AggregatedMetrics :=
  List.insertionSort (fun a b => periodLe a.Period b.Period)
    ((groupByPeriod monthKey monthStartDate monthEndDate prMetrics).map
      (fun b => calculateAggregatedMetrics b.key b.startDate b.endDate b.prs))

/-- The average over the strictly-positive inclusion set of a duration/gap
field: sum/count, and 0 when the inclusion set is empty. -/
def posAvg (f : PRMetrics → ℚ) (prs : List PRMetrics) : ℚ :=
  if positiveVals f prs = [] then 0
  else (positiveVals f prs).sum / ((positiveVals f prs).length : ℚ)

/-- The median over the strictly-positive inclusion set of a duration/gap
field (calculateMedianFloat already returns 0 on an empty collection). -/
def posMedian (f : PRMetrics → ℚ) (prs : List PRMetrics) : ℚ :=
  (calculateMedianFloat (positiveVals f prs)).1

/-- The invariant of the grouping maps: every bucket's start/end dates come
from some instant with the bucket's key, and every PR in the bucket is
merged with its merge instant mapping to the bucket's key. -/
def bucketInv (key : GoTime → Int × Int) (sd ed : GoTime → GoTime)
    (b : PeriodBucket) : Prop :=
  (∃ t : GoTime, key t = b.key ∧ b.startDate = sd t ∧ b.endDate = ed t) ∧
  ∀ p ∈ b.prs, ¬ p.MergedAt = goZeroTime ∧ key p.MergedAt = b.key

/-! Theorems. -/

theorem daysSinceYear1_decomp (n400 n100 n4 n1 : Int)
    (h100 : 0 ≤ n100 ∧ n100 ≤ 3) (h4 : 0 ≤ n4 ∧ n4 ≤ 24) (h1 : 0 ≤ n1 ∧ n1 ≤ 3) :
    daysSinceYear1 (1 + 400 * n400 + 100 * n100 + 4 * n4 + n1) =
      146097 * n400 + 36524 * n100 + 1461 * n4 + 365 * n1 := by
  simp only [daysSinceYear1]
  omega

theorem absYearYday_spec (z : Int) :
    daysSinceYear1 (absYearYday z).1 - 719162 + (absYearYday z).2 = z ∧
    0 ≤ (absYearYday z).2 ∧
    (absYearYday z).2 ≤ (if goIsLeap (absYearYday z).1 then 365 else 364) := by
  simp only [absYearYday]
  set n400 := (z + 719162) / 146097 with hn400
  set d1 := z + 719162 - 146097 * n400 with hd1
  set q100 := d1 / 36524 with hq100
  set n100 := q100 - q100 / 4 with hn100
  set d2 := d1 - 36524 * n100 with hd2
  set n4 := d2 / 1461 with hn4
  set d3 := d2 - 1461 * n4 with hd3
  set q1 := d3 / 365 with hq1
  set n1 := q1 - q1 / 4 with hn1
  set yday := d3 - 365 * n1 with hyday
  set y := 1 + 400 * n400 + 100 * n100 + 4 * n4 + n1 with hy
  have hb1 : 0 ≤ d1 ∧ d1 < 146097 := by omega
  have hb100 : 0 ≤ n100 ∧ n100 ≤ 3 := by omega
  have hbd2 : 0 ≤ d2 ∧ d2 ≤ 36524 ∧ (d2 = 36524 → n100 = 3) := by omega
  have hb4 : 0 ≤ n4 ∧ n4 ≤ 24 := by omega
  have hbd3 : 0 ≤ d3 ∧ d3 ≤ 1460 := by omega
  have hbn1 : 0 ≤ n1 ∧ n1 ≤ 3 := by omega
  have hbyday : 0 ≤ yday ∧ yday ≤ 365 := by omega
  have h365 : yday = 365 → n1 = 3 ∧ d3 = 1460 := by omega
  have h365b : yday = 365 ∧ n4 = 24 → n100 = 3 := by omega
  rw [daysSinceYear1_decomp n400 n100 n4 n1 hb100 hb4 hbn1]
  refine ⟨by omega, hbyday.1, ?_⟩
  by_cases hL : goIsLeap y
  · simp only [if_pos hL]; omega
  · simp only [if_neg hL]
    by_contra hcon
    have hy365 : yday = 365 := by omega
    apply hL
    constructor
    · omega
    · by_cases h24 : n4 = 24
      · right; omega
      · left; omega

theorem daysSinceYear1_succ (y : Int) :
    daysSinceYear1 (y + 1) = daysSinceYear1 y + (if goIsLeap y then 366 else 365) := by
  simp only [daysSinceYear1]
  by_cases hL : goIsLeap y
  · rw [if_pos hL]
    obtain ⟨h4, h100⟩ := hL
    rcases h100 with h100 | h400 <;> omega
  · rw [if_neg hL]
    rw [goIsLeap, not_and_or, not_or] at hL
    rcases hL with h4 | ⟨h100, h400⟩ <;> omega

set_option maxHeartbeats 4000000 in
theorem monthFromYday (y yday : Int) (h0 : 0 ≤ yday)
    (h1 : yday ≤ (if goIsLeap y then 365 else 364)) :
    1 ≤ (absMonthDay y yday).1 ∧ (absMonthDay y yday).1 ≤ 12 ∧
    1 ≤ (absMonthDay y yday).2 ∧
    daysBefore ((absMonthDay y yday).1 - 1) +
      (if goIsLeap y ∧ 3 ≤ (absMonthDay y yday).1 then 1 else 0) ≤ yday ∧
    yday < (if (absMonthDay y yday).1 = 12 then (if goIsLeap y then 366 else 365)
            else daysBefore ((absMonthDay y yday).1) +
              (if goIsLeap y ∧ 3 ≤ (absMonthDay y yday).1 + 1 then 1 else 0)) := by
  by_cases hL : goIsLeap y
  · rw [if_pos hL] at h1
    by_cases h59 : yday = 59
    · simp only [absMonthDay, eq_true hL, eq_true h59, true_and, if_true]
      norm_num [daysBefore]
      omega
    · by_cases h60 : 59 < yday
      · simp only [absMonthDay, eq_true hL, eq_false h59, eq_true h60, true_and,
          if_true, if_false]
        generalize hm0 : (yday - 1) / 31 = m0
        have hb1 : 0 ≤ m0 := by omega
        have hb2 : m0 ≤ 11 := by omega
        split_ifs with hlook <;>
          dsimp only <;>
          interval_cases m0 <;>
          simp only [daysBefore] at hlook ⊢ <;>
          norm_num at hlook ⊢ <;>
          omega
      · simp only [absMonthDay, eq_true hL, eq_false h59, eq_false h60, true_and,
          if_true, if_false]
        generalize hm0 : yday / 31 = m0
        have hb1 : 0 ≤ m0 := by omega
        have hb2 : m0 ≤ 11 := by omega
        split_ifs with hlook <;>
          dsimp only <;>
          interval_cases m0 <;>
          simp only [daysBefore] at hlook ⊢ <;>
          norm_num at hlook ⊢ <;>
          omega
  · rw [if_neg hL] at h1
    simp only [absMonthDay, eq_false hL, false_and, if_false]
    generalize hm0 : yday / 31 = m0
    have hb1 : 0 ≤ m0 := by omega
    have hb2 : m0 ≤ 11 := by omega
    split_ifs with hlook <;>
      dsimp only <;>
      interval_cases m0 <;>
      simp only [daysBefore] at hlook ⊢ <;>
      norm_num at hlook ⊢ <;>
      omega

theorem goDateDays_of_valid (y m : Int) (h1 : 1 ≤ m) (h2 : m ≤ 12) :
    goDateDays y m 1 =
      daysSinceYear1 y + daysBefore (m - 1) +
        (if goIsLeap y ∧ 3 ≤ m then 1 else 0) - 719162 := by
  simp only [goDateDays]
  have ha : (m - 1) / 12 = 0 := by omega
  have hb : (m - 1) % 12 = m - 1 := by omega
  rw [ha, hb]
  simp only [add_zero, Int.sub_add_cancel]
  omega

theorem goDateDays_thirteen (y : Int) :
    goDateDays y 13 1 = daysSinceYear1 (y + 1) - 719162 := by
  norm_num [goDateDays, daysBefore]

set_option maxHeartbeats 1000000 in
theorem absDateDays_spec (z : Int) :
    1 ≤ (absDateDays z).2.1 ∧ (absDateDays z).2.1 ≤ 12 ∧
    1 ≤ (absDateDays z).2.2 ∧
    goDateDays (absDateDays z).1 (absDateDays z).2.1 1 ≤ z ∧
    z < goDateDays (absDateDays z).1 ((absDateDays z).2.1 + 1) 1 := by
  obtain ⟨hz, hy0, hy1⟩ := absYearYday_spec z
  have hm := monthFromYday (absYearYday z).1 (absYearYday z).2 hy0 hy1
  obtain ⟨h1m, h12m, h1d, hlo, hhi⟩ := hm
  have habs : absDateDays z = ((absYearYday z).1,
      absMonthDay (absYearYday z).1 (absYearYday z).2) := rfl
  rw [habs]
  dsimp only
  refine ⟨h1m, h12m, h1d, ?_, ?_⟩
  · rw [goDateDays_of_valid _ _ h1m h12m]
    omega
  · by_cases h12 : (absMonthDay (absYearYday z).1 (absYearYday z).2).1 = 12
    · rw [h12]
      have h13 : (12 : Int) + 1 = 13 := by norm_num
      rw [h13, goDateDays_thirteen, daysSinceYear1_succ]
      rw [if_pos h12] at hhi
      by_cases hL : goIsLeap (absYearYday z).1
      · rw [if_pos hL] at hhi ⊢; omega
      · rw [if_neg hL] at hhi ⊢; omega
    · rw [goDateDays_of_valid _ _ (by omega) (by omega)]
      rw [if_neg h12] at hhi
      have hred : (absMonthDay (absYearYday z).1 (absYearYday z).2).1 + 1 - 1 =
          (absMonthDay (absYearYday z).1 (absYearYday z).2).1 := by omega
      rw [hred]
      omega

theorem goDays_bounds (t : GoTime) :
    dayStart (goDays t) ≤ t ∧ t < dayStart (goDays t + 1) := by
  unfold goDays dayStart
  constructor
  · have h := Int.floor_le (t / 24)
    rw [le_div_iff (by norm_num : (0:ℚ) < 24)] at h
    linarith
  · have h := Int.lt_floor_add_one (t / 24)
    rw [div_lt_iff (by norm_num : (0:ℚ) < 24)] at h
    push_cast
    push_cast at h
    linarith

theorem goDays_dayStart (d : Int) : goDays (dayStart d) = d := by
  unfold goDays dayStart
  rw [mul_comm, mul_div_assoc]
  norm_num

theorem getStartOfISOWeek_eq (t : GoTime) :
    getStartOfISOWeek t = dayStart (7 * ((goDays t - 4) / 7) + 4) := by
  simp only [getStartOfISOWeek, goWeekday]
  congr 1
  split_ifs with h <;> omega

theorem goISOWeek_thursday (t : GoTime) :
    goDays t + (if 4 - goWeekday t = 4 then -3 else 4 - goWeekday t) =
      7 * ((goDays t - 4) / 7) + 4 + 3 := by
  unfold goWeekday
  split_ifs with h <;> omega

theorem goISOWeek_inj (s t : GoTime) (h : goISOWeek s = goISOWeek t) :
    (goDays s - 4) / 7 = (goDays t - 4) / 7 := by
  have hs := goISOWeek_thursday s
  have ht := goISOWeek_thursday t
  simp only [goISOWeek] at h
  rw [hs, ht] at h
  rw [Prod.ext_iff] at h
  obtain ⟨hy, hw⟩ := h
  dsimp only at hy hw
  have Hs := absYearYday_spec (7 * ((goDays s - 4) / 7) + 4 + 3)
  have Ht := absYearYday_spec (7 * ((goDays t - 4) / 7) + 4 + 3)
  rw [hy] at Hs
  obtain ⟨Hs1, Hs2, -⟩ := Hs
  obtain ⟨Ht1, Ht2, -⟩ := Ht
  omega

theorem calculateMedianFloat_sort_state (values : List ℚ) (h : values ≠ []) :
    (calculateMedianFloat values).2 = List.insertionSort (· ≤ ·) values := by
  simp only [calculateMedianFloat]
  rw [if_neg (by simpa using h)]
  split_ifs <;> rfl

/-- C4 counterexample: calculateMedianFloat sorts the caller's slice in
place (sort.Float64s), so on input [3, 1] the caller's collection ends as
[1, 3], not [3, 1]: the claim that every median computation leaves the
input unchanged is false. -/
theorem median_frame_counterexample :
    ¬ ((calculateMedianFloat [3, 1]).2 = [3, 1]) := by decide

/-- C4 (amended): calculateMedianInt leaves the caller's collection exactly
as it was (it copies into a fresh float slice), while calculateMedianFloat
leaves the caller's collection as the ascending rearrangement of its
elements (same multiset, sorted in place). -/
theorem median_frame_amended :
    (∀ values : List Int, (calculateMedianInt values).2 = values) ∧
    (∀ values : List ℚ,
      (calculateMedianFloat values).2.Perm values ∧
      (calculateMedianFloat values).2.Sorted (· ≤ ·)) := by
  constructor
  · intro values
    unfold calculateMedianInt
    split_ifs <;> rfl
  · intro values
    rcases eq_or_ne values [] with h | h
    · subst h
      constructor
      · rfl
      · exact List.sorted_nil
    · rw [calculateMedianFloat_sort_state values h]
      exact ⟨List.perm_insertionSort _ _, List.sorted_insertionSort _ _⟩

/-- C5: median of the empty collection is 0; a singleton's median is its
element; median [1,3] = 2, median [1,2,3] = 2, median [1,2,3,4] = 2.5, for
the integer and the rational variant alike; the integer variant agrees with
the rational variant on the casted input; and for any non-empty input the
result is the middle element (odd length), or the mean of the two central
elements (even length), of any ascending arrangement of the input. -/
theorem median_values_spec :
    (calculateMedianFloat []).1 = 0 ∧
    (calculateMedianInt []).1 = 0 ∧
    (∀ x : ℚ, (calculateMedianFloat [x]).1 = x) ∧
    (calculateMedianFloat [1, 3]).1 = 2 ∧
    (calculateMedianFloat [1, 2, 3]).1 = 2 ∧
    (calculateMedianFloat [1, 2, 3, 4]).1 = 5 / 2 ∧
    (calculateMedianInt [1, 3]).1 = 2 ∧
    (calculateMedianInt [1, 2, 3]).1 = 2 ∧
    (calculateMedianInt [1, 2, 3, 4]).1 = 5 / 2 ∧
    (∀ values : List Int,
      (calculateMedianInt values).1 =
        (calculateMedianFloat (values.map (fun v => (v : ℚ)))).1) ∧
    (∀ values s : List ℚ, values.Perm s → s.Sorted (· ≤ ·) → values ≠ [] →
      (calculateMedianFloat values).1 =
        if values.length % 2 = 0 then
          (s.getD (values.length / 2 - 1) 0 + s.getD (values.length / 2) 0) / 2
        else s.getD (values.length / 2) 0) := by
  refine ⟨by decide, by decide, ?_,
    by norm_num [calculateMedianFloat, List.insertionSort, List.orderedInsert],
    by norm_num [calculateMedianFloat, List.insertionSort, List.orderedInsert],
    by norm_num [calculateMedianFloat, List.insertionSort, List.orderedInsert],
    by norm_num [calculateMedianInt, calculateMedianFloat, List.insertionSort,
      List.orderedInsert],
    by norm_num [calculateMedianInt, calculateMedianFloat, List.insertionSort,
      List.orderedInsert],
    by norm_num [calculateMedianInt, calculateMedianFloat, List.insertionSort,
      List.orderedInsert],
    ?_, ?_⟩
  · intro x
    norm_num [calculateMedianFloat, List.insertionSort, List.orderedInsert]
  · intro values
    rcases eq_or_ne values [] with h | h
    · subst h
      rfl
    · simp only [calculateMedianInt]
      rw [if_neg (by simpa using h)]
  · intro values s hperm hsorted hne
    have hsort : List.insertionSort (· ≤ ·) values = s :=
      List.eq_of_perm_of_sorted ((List.perm_insertionSort _ values).trans hperm)
        (List.sorted_insertionSort _ values) hsorted
    have hlen : (List.insertionSort (· ≤ ·) values).length = values.length :=
      List.length_insertionSort _ _
    simp only [calculateMedianFloat]
    rw [if_neg (by simpa using hne)]
    rw [hsort] at hlen ⊢
    rw [hlen]
    split_ifs <;> rfl

/-- C5 witness: the even-length clause applied to [3, 1] with ascending
arrangement [1, 3] yields median 2. -/
theorem median_values_spec_witness : (calculateMedianFloat [3, 1]).1 = 2 := by
  have h := median_values_spec.2.2.2.2.2.2.2.2.2.2
    [3, 1] [1, 3] (by decide) (by decide) (by decide)
  rw [h]
  norm_num [List.getD_cons_zero, List.getD_cons_succ]

/-- C6: getStartOfISOWeek returns the Monday at 00:00:00 of the ISO week
containing the input (a Monday-midnight instant at most six days before
the input's day); any two dates in the same ISO week (the same
Monday-aligned seven-day block) give the same result; and on a Sunday the
result is the Monday six days earlier. -/
theorem isoWeekStart_spec :
    (∀ d : GoTime,
      goWeekday (getStartOfISOWeek d) = 1 ∧
      getStartOfISOWeek d = dayStart (goDays (getStartOfISOWeek d)) ∧
      goDays d - 6 ≤ goDays (getStartOfISOWeek d) ∧
      goDays (getStartOfISOWeek d) ≤ goDays d) ∧
    (∀ d e : GoTime, (goDays d - 4) / 7 = (goDays e - 4) / 7 →
      getStartOfISOWeek d = getStartOfISOWeek e) ∧
    (∀ d : GoTime, goWeekday d = 0 →
      getStartOfISOWeek d = dayStart (goDays d - 6)) := by
  refine ⟨fun d => ?_, fun d e h => ?_, fun d h => ?_⟩
  · rw [getStartOfISOWeek_eq d]
    rw [goWeekday, goDays_dayStart]
    refine ⟨by omega, rfl, by omega, by omega⟩
  · rw [getStartOfISOWeek_eq d, getStartOfISOWeek_eq e, h]
  · rw [getStartOfISOWeek_eq d]
    rw [goWeekday] at h
    congr 1
    omega

/-- C6 witness: 1970-01-04 00:00 (hour 72) was a Sunday, and its ISO week
start is the Monday six days earlier (1969-12-29). -/
theorem isoWeekStart_spec_witness :
    goWeekday (72 : GoTime) = 0 ∧
    getStartOfISOWeek (72 : GoTime) = dayStart (goDays (72 : GoTime) - 6) := by
  have h0 : goWeekday (72 : GoTime) = 0 := by
    rw [goWeekday, goDays]
    norm_num
  exact ⟨h0, isoWeekStart_spec.2.2 72 h0⟩

theorem goZeroTime_eq : goZeroTime = dayStart (goDateDays 1 1 1) := by
  norm_num [goZeroTime, dayStart, goDateDays, daysSinceYear1, daysBefore]

/-- C9: for every successfully computed PR, the number of commits made
during the PR never exceeds the total commit count. -/
theorem commitCountDuringPR_le (pr : GoPullRequest) (fetched : FetchResults)
    (m : PRMetrics) (h : CalculatePRMetrics pr fetched = .ok m) :
    m.CommitCountDuringPR ≤ m.CommitCount := by
  obtain ⟨det, cms, cmts, rvs⟩ := fetched
  cases det with
  | error e => simp [CalculatePRMetrics] at h
  | ok d =>
    cases cms with
    | error e => simp [CalculatePRMetrics] at h
    | ok commits =>
      obtain ⟨ad, dl, cf⟩ := d
      simp only [CalculatePRMetrics, Except.ok.injEq] at h
      subst h
      cases commits with
      | nil => simp [calculateCommitMetrics]
      | cons c rest =>
        simp only [calculateCommitMetrics]
        exact_mod_cast List.length_filter_le _ _

/-- C9 witness: a PR with one commit before creation and one at creation:
the during-PR count (1) is at most the commit count (2). -/
theorem commitCountDuringPR_le_witness :
    (((CalculatePRMetrics ⟨1, "", "", none, 10, 0, ""⟩
        ⟨.ok (0, 0, 0), .ok [⟨some 5⟩, ⟨some 10⟩], .ok [], .ok []⟩).toOption).getD
      {}).CommitCountDuringPR ≤
    (((CalculatePRMetrics ⟨1, "", "", none, 10, 0, ""⟩
        ⟨.ok (0, 0, 0), .ok [⟨some 5⟩, ⟨some 10⟩], .ok [], .ok []⟩).toOption).getD
      {}).CommitCount :=
  commitCountDuringPR_le ⟨1, "", "", none, 10, 0, ""⟩
    ⟨.ok (0, 0, 0), .ok [⟨some 5⟩, ⟨some 10⟩], .ok [], .ok []⟩ _ (by rfl)

theorem calculateAll_filterMap (items : List (GoPullRequest × FetchResults)) :
    CalculateAllPRMetrics items =
      items.filterMap (fun it => (CalculatePRMetrics it.1 it.2).toOption) := by
  induction items with
  | nil => rfl
  | cons it rest ih =>
    obtain ⟨pr, fetched⟩ := it
    simp only [CalculateAllPRMetrics, List.filterMap_cons]
    cases h : CalculatePRMetrics pr fetched with
    | error e => simpa [h, Except.toOption] using ih
    | ok m => simpa [h, Except.toOption] using ih

/-- C8: a failed details fetch or a failed commits fetch makes the per-PR
computation return that error; with details and commits available the
computation always succeeds, and a failed comments fetch or reviews fetch
behaves exactly as an empty comment/review list (the corresponding fields
keep their zero defaults); the batch is the filterMap of the per-PR
results, so an erroring PR is dropped and the loop continues. -/
theorem error_handling_spec :
    (∀ (pr : GoPullRequest) (e : String) (cms : Except String (List GoCommit))
        (cmts : Except String (List GoComment)) (rvs : Except String (List GoReview)),
      CalculatePRMetrics pr ⟨.error e, cms, cmts, rvs⟩ = .error e) ∧
    (∀ (pr : GoPullRequest) (det : Int × Int × Int) (e : String)
        (cmts : Except String (List GoComment)) (rvs : Except String (List GoReview)),
      CalculatePRMetrics pr ⟨.ok det, .error e, cmts, rvs⟩ = .error e) ∧
    (∀ (pr : GoPullRequest) (det : Int × Int × Int) (cms : List GoCommit)
        (cmts : Except String (List GoComment)) (rvs : Except String (List GoReview)),
      (CalculatePRMetrics pr ⟨.ok det, .ok cms, cmts, rvs⟩).isOk = true) ∧
    (∀ (pr : GoPullRequest) (det : Int × Int × Int) (cms : List GoCommit)
        (e : String) (rvs : Except String (List GoReview)),
      CalculatePRMetrics pr ⟨.ok det, .ok cms, .error e, rvs⟩ =
        CalculatePRMetrics pr ⟨.ok det, .ok cms, .ok [], rvs⟩) ∧
    (∀ (pr : GoPullRequest) (det : Int × Int × Int) (cms : List GoCommit)
        (cmts : Except String (List GoComment)) (e : String),
      CalculatePRMetrics pr ⟨.ok det, .ok cms, cmts, .error e⟩ =
        CalculatePRMetrics pr ⟨.ok det, .ok cms, cmts, .ok []⟩) ∧
    (∀ items : List (GoPullRequest × FetchResults),
      CalculateAllPRMetrics items =
        items.filterMap (fun it => (CalculatePRMetrics it.1 it.2).toOption)) := by
  refine ⟨fun pr e cms cmts rvs => rfl, fun pr det e cmts rvs => rfl,
    fun pr det cms cmts rvs => rfl, fun pr det cms e rvs => rfl,
    fun pr det cms cmts e => rfl, calculateAll_filterMap⟩

theorem sortPair (a b : ℚ) :
    List.insertionSort (· ≤ ·) [a, b] = if a ≤ b then [a, b] else [b, a] := by
  simp only [List.insertionSort, List.orderedInsert]

theorem maxGapScan_pair (a b : ℚ) (h : a ≤ b) : maxGapScan 0 [a, b] = b - a := by
  simp only [maxGapScan]
  split_ifs with hgt
  · rfl
  · linarith

/-- C2 counterexample: a PR with exactly one commit (hour 0) and exactly
one comment (hour 24) has MaxNoActivityPeriodHours = 24, not 0: the
combined two-element series contributes its single gap, so the claim that
all three gap fields are 0 is false. -/
theorem gaps_single_pair_counterexample :
    ¬ ((CalculatePRMetrics ⟨7, "", "", none, 0, 0, ""⟩
        ⟨.ok (0, 0, 0), .ok [⟨some 0⟩], .ok [⟨24⟩], .ok []⟩).map
      (fun m => m.MaxNoActivityPeriodHours) = .ok 0) := by
  intro h
  simp only [CalculatePRMetrics, Except.map, calculateWaitingPeriods,
    List.filterMap, List.map] at h
  norm_num [List.insertionSort, List.orderedInsert, maxGapScan] at h

/-- C2 (amended): for a PR with exactly one commit (with a timestamp) and
exactly one comment, MaxNoCommentPeriodHours and MaxNoCommitPeriodHours are
0 (single-element series have no consecutive pair), but
MaxNoActivityPeriodHours equals the absolute difference between the comment
and the commit timestamps — the combined two-element series has one gap,
which is 0 only when the two timestamps coincide. -/
theorem gaps_single_pair (pr : GoPullRequest) (det : Int × Int × Int)
    (rvs : Except String (List GoReview)) (c1 cm : GoTime) :
    (CalculatePRMetrics pr ⟨.ok det, .ok [⟨some c1⟩], .ok [⟨cm⟩], rvs⟩).map
      (fun m => (m.MaxNoActivityPeriodHours, m.MaxNoCommentPeriodHours,
        m.MaxNoCommitPeriodHours)) = .ok (|cm - c1|, 0, 0) := by
  obtain ⟨ad, dl, cf⟩ := det
  simp only [CalculatePRMetrics, Except.map, calculateWaitingPeriods,
    List.filterMap, List.map]
  norm_num
  rcases le_or_lt c1 cm with h | h
  · rw [if_pos h, maxGapScan_pair c1 cm h,
      abs_of_nonneg (show (0 : ℚ) ≤ cm - c1 by linarith)]
    exact ⟨rfl, rfl, rfl⟩
  · rw [if_neg (not_le.2 h), maxGapScan_pair cm c1 (le_of_lt h),
      abs_of_nonpos (show cm - c1 ≤ (0 : ℚ) by linarith)]
    refine ⟨by ring, rfl, rfl⟩

theorem posAvg_eq (f : PRMetrics → ℚ) (prs : List PRMetrics) :
    (if 0 < (positiveVals f prs).length then
      (positiveVals f prs).sum / ((positiveVals f prs).length : ℚ)
    else 0) = posAvg f prs := by
  rcases eq_or_ne (positiveVals f prs) [] with h | h
  · simp [posAvg, h]
  · rw [posAvg, if_neg h, if_pos (List.length_pos.2 h)]

theorem posMedian_eq (f : PRMetrics → ℚ) (prs : List PRMetrics) :
    (if 0 < (positiveVals f prs).length then
      (calculateMedianFloat (positiveVals f prs)).1
    else 0) = posMedian f prs := by
  rcases eq_or_ne (positiveVals f prs) [] with h | h
  · simp [posMedian, h, calculateMedianFloat]
  · rw [posMedian, if_pos (List.length_pos.2 h)]

set_option maxHeartbeats 2000000 in
/-- C3: for every bucket, each duration/gap field is averaged and medianed
over exactly the PRs whose value for that field is strictly positive
(sum/count and median of the same inclusion collection, both 0 when the
inclusion count is zero), PRCount stays the full bucket size, and a bucket
with TotalPRLifetimeHours values [0, 20, 30] reports average 25, median 25
and PRCount 3. -/
theorem aggregate_positive_inclusion (period : Int × Int) (s e : GoTime)
    (prs : List PRMetrics) :
    (calculateAggregatedMetrics period s e prs).PRCount = (prs.length : Int) ∧
    ((calculateAggregatedMetrics period s e prs).AvgFirstCommitToCreateHours =
        posAvg (fun pr => pr.FirstCommitToCreateHours) prs ∧
      (calculateAggregatedMetrics period s e prs).MedianFirstCommitToCreateHours =
        posMedian (fun pr => pr.FirstCommitToCreateHours) prs) ∧
    ((calculateAggregatedMetrics period s e prs).AvgCreateToLastCommitHours =
        posAvg (fun pr => pr.CreateToLastCommitHours) prs ∧
      (calculateAggregatedMetrics period s e prs).MedianCreateToLastCommitHours =
        posMedian (fun pr => pr.CreateToLastCommitHours) prs) ∧
    ((calculateAggregatedMetrics period s e prs).AvgFirstCommitToMergeHours =
        posAvg (fun pr => pr.FirstCommitToMergeHours) prs ∧
      (calculateAggregatedMetrics period s e prs).MedianFirstCommitToMergeHours =
        posMedian (fun pr => pr.FirstCommitToMergeHours) prs) ∧
    ((calculateAggregatedMetrics period s e prs).AvgLastCommitToMergeHours =
        posAvg (fun pr => pr.LastCommitToMergeHours) prs ∧
      (calculateAggregatedMetrics period s e prs).MedianLastCommitToMergeHours =
        posMedian (fun pr => pr.LastCommitToMergeHours) prs) ∧
    ((calculateAggregatedMetrics period s e prs).AvgCreatedToFirstCommentHours =
        posAvg (fun pr => pr.CreatedToFirstCommentHours) prs ∧
      (calculateAggregatedMetrics period s e prs).MedianCreatedToFirstCommentHours =
        posMedian (fun pr => pr.CreatedToFirstCommentHours) prs) ∧
    ((calculateAggregatedMetrics period s e prs).AvgTimeToApprovalHours =
        posAvg (fun pr => pr.TimeToApprovalHours) prs ∧
      (calculateAggregatedMetrics period s e prs).MedianTimeToApprovalHours =
        posMedian (fun pr => pr.TimeToApprovalHours) prs) ∧
    ((calculateAggregatedMetrics period s e prs).AvgTotalPRLifetimeHours =
        posAvg (fun pr => pr.TotalPRLifetimeHours) prs ∧
      (calculateAggregatedMetrics period s e prs).MedianTotalPRLifetimeHours =
        posMedian (fun pr => pr.TotalPRLifetimeHours) prs) ∧
    ((calculateAggregatedMetrics period s e prs).AvgMaxNoCommentPeriodHours =
        posAvg (fun pr => pr.MaxNoCommentPeriodHours) prs ∧
      (calculateAggregatedMetrics period s e prs).MedianMaxNoCommentPeriodHours =
        posMedian (fun pr => pr.MaxNoCommentPeriodHours) prs) ∧
    ((calculateAggregatedMetrics period s e prs).AvgMaxNoCommitPeriodHours =
        posAvg (fun pr => pr.MaxNoCommitPeriodHours) prs ∧
      (calculateAggregatedMetrics period s e prs).MedianMaxNoCommitPeriodHours =
        posMedian (fun pr => pr.MaxNoCommitPeriodHours) prs) ∧
    ((calculateAggregatedMetrics period s e prs).AvgMaxNoActivityPeriodHours =
        posAvg (fun pr => pr.MaxNoActivityPeriodHours) prs ∧
      (calculateAggregatedMetrics period s e prs).MedianMaxNoActivityPeriodHours =
        posMedian (fun pr => pr.MaxNoActivityPeriodHours) prs) ∧
    ((calculateAggregatedMetrics period s e
        [{ TotalPRLifetimeHours := 0 }, { TotalPRLifetimeHours := 20 },
          { TotalPRLifetimeHours := 30 }]).AvgTotalPRLifetimeHours = 25 ∧
      (calculateAggregatedMetrics period s e
        [{ TotalPRLifetimeHours := 0 }, { TotalPRLifetimeHours := 20 },
          { TotalPRLifetimeHours := 30 }]).MedianTotalPRLifetimeHours = 25 ∧
      (calculateAggregatedMetrics period s e
        [{ TotalPRLifetimeHours := 0 }, { TotalPRLifetimeHours := 20 },
          { TotalPRLifetimeHours := 30 }]).PRCount = 3) := by
  constructor
  · rcases eq_or_ne prs [] with h | h
    · subst h
      rfl
    · have hlen : ¬ prs.length = 0 := by simpa using h
      simp only [calculateAggregatedMetrics]
      rw [if_neg hlen]
  · rcases eq_or_ne prs [] with h | h
    · subst h
      refine ⟨?_, ?_, ?_, ?_, ?_, ?_, ?_, ?_, ?_, ?_, ?_⟩ <;>
        first
          | exact ⟨rfl, rfl⟩
          | norm_num [calculateAggregatedMetrics, positiveVals,
              calculateMedianFloat, List.insertionSort, List.orderedInsert]
    · have hlen : ¬ prs.length = 0 := by simpa using (List.length_pos.2 h).ne.symm
      simp only [calculateAggregatedMetrics, if_neg hlen]
      refine ⟨⟨posAvg_eq _ _, posMedian_eq _ _⟩, ⟨posAvg_eq _ _, posMedian_eq _ _⟩,
        ⟨posAvg_eq _ _, posMedian_eq _ _⟩, ⟨posAvg_eq _ _, posMedian_eq _ _⟩,
        ⟨posAvg_eq _ _, posMedian_eq _ _⟩, ⟨posAvg_eq _ _, posMedian_eq _ _⟩,
        ⟨posAvg_eq _ _, posMedian_eq _ _⟩, ⟨posAvg_eq _ _, posMedian_eq _ _⟩,
        ⟨posAvg_eq _ _, posMedian_eq _ _⟩, ⟨posAvg_eq _ _, posMedian_eq _ _⟩, ?_⟩
      norm_num [calculateAggregatedMetrics, positiveVals,
        calculateMedianFloat, List.insertionSort, List.orderedInsert]

theorem calcAgg_PRCount (period : Int × Int) (s e : GoTime) (prs : List PRMetrics) :
    (calculateAggregatedMetrics period s e prs).PRCount = (prs.length : Int) := by
  rcases eq_or_ne prs [] with h | h
  · subst h
    rfl
  · have hlen : ¬ prs.length = 0 := by simpa using h
    simp only [calculateAggregatedMetrics]
    rw [if_neg hlen]

theorem insertBucket_prsLen (k : Int × Int) (s e : GoTime) (pr : PRMetrics) :
    ∀ bs : List PeriodBucket,
      ((insertBucket k s e pr bs).map (fun b => b.prs.length)).sum =
        (bs.map (fun b => b.prs.length)).sum + 1 := by
  intro bs
  induction bs with
  | nil => rfl
  | cons b rest ih =>
    simp only [insertBucket]
    split_ifs with hk
    · simp only [List.map_cons, List.sum_cons, List.length_append]
      simp only [List.length_cons, List.length_nil]
      omega
    · simp only [List.map_cons, List.sum_cons, ih]
      omega

theorem foldlGroup_len (key : GoTime → Int × Int) (sd ed : GoTime → GoTime) :
    ∀ (prs : List PRMetrics) (acc : List PeriodBucket),
      ((prs.foldl (fun acc pr =>
          if pr.MergedAt = goZeroTime then acc
          else insertBucket (key pr.MergedAt) (sd pr.MergedAt) (ed pr.MergedAt) pr acc)
        acc).map (fun b => b.prs.length)).sum =
      (acc.map (fun b => b.prs.length)).sum +
        (prs.filter (fun p => decide (¬ p.MergedAt = goZeroTime))).length := by
  intro prs
  induction prs with
  | nil =>
    intro acc
    simp
  | cons p rest ih =>
    intro acc
    simp only [List.foldl_cons, List.filter_cons]
    by_cases hz : p.MergedAt = goZeroTime
    · rw [if_pos hz, ih]
      simp [hz]
    · rw [if_neg hz, ih, insertBucket_prsLen]
      simp [hz]
      omega

theorem sum_PRCount_buckets (bs : List PeriodBucket) :
    ((bs.map (fun b =>
        calculateAggregatedMetrics b.key b.startDate b.endDate b.prs)).map
      (fun a => a.PRCount)).sum =
    (((bs.map (fun b => b.prs.length)).sum : ℕ) : Int) := by
  induction bs with
  | nil => rfl
  | cons b rest ih =>
    simp only [List.map_cons, List.sum_cons, calcAgg_PRCount, ih]
    push_cast
    ring

theorem sum_PRCount_sort (l : List AggregatedMetrics) :
    ((List.insertionSort (fun a b => periodLe a.Period b.Period) l).map
      (fun a => a.PRCount)).sum = (l.map (fun a => a.PRCount)).sum :=
  ((List.perm_insertionSort _ l).map _).sum_eq

/-- C7: the weekly and the monthly aggregation distribute every merged PR
into exactly one bucket, so both PRCount totals equal the number of input
PRs with a non-zero merge timestamp. -/
theorem roundtrip_prcounts (prs : List PRMetrics) :
    ((CalculateWeeklyAggregatedMetrics prs).map (fun a => a.PRCount)).sum =
      ((prs.filter (fun p => decide (¬ p.MergedAt = goZeroTime))).length : Int) ∧
    ((CalculateMonthlyAggregatedMetrics prs).map (fun a => a.PRCount)).sum =
      ((prs.filter (fun p => decide (¬ p.MergedAt = goZeroTime))).length : Int) := by
  constructor
  · rw [CalculateWeeklyAggregatedMetrics, sum_PRCount_sort, sum_PRCount_buckets,
      groupByPeriod, foldlGroup_len]
    simp
  · rw [CalculateMonthlyAggregatedMetrics, sum_PRCount_sort, sum_PRCount_buckets,
      groupByPeriod, foldlGroup_len]
    simp

theorem insertBucket_ne_nil (k : Int × Int) (s e : GoTime) (pr : PRMetrics) :
    ∀ bs : List PeriodBucket, (∀ b ∈ bs, b.prs ≠ []) →
      ∀ b ∈ insertBucket k s e pr bs, b.prs ≠ [] := by
  intro bs
  induction bs with
  | nil =>
    intro _ b hb
    simp only [insertBucket, List.mem_singleton] at hb
    subst hb
    simp
  | cons b0 rest ih =>
    intro hall b hb
    simp only [insertBucket] at hb
    split_ifs at hb with hk
    · rcases List.mem_cons.1 hb with rfl | hmem
      · simp
      · exact hall b (List.mem_cons_of_mem _ hmem)
    · rcases List.mem_cons.1 hb with rfl | hmem
      · exact hall b (List.mem_cons_self _ _)
      · exact ih (fun b' hb' => hall b' (List.mem_cons_of_mem _ hb')) b hmem

theorem groupByPeriod_ne_nil (key : GoTime → Int × Int) (sd ed : GoTime → GoTime)
    (prs : List PRMetrics) : ∀ b ∈ groupByPeriod key sd ed prs, b.prs ≠ [] := by
  rw [groupByPeriod]
  suffices h : ∀ (l : List PRMetrics) (acc : List PeriodBucket),
      (∀ b ∈ acc, b.prs ≠ []) →
      ∀ b ∈ l.foldl (fun acc pr =>
        if pr.MergedAt = goZeroTime then acc
        else insertBucket (key pr.MergedAt) (sd pr.MergedAt) (ed pr.MergedAt) pr acc) acc,
        b.prs ≠ [] by
    exact h prs [] (by simp)
  intro l
  induction l with
  | nil => intro acc hacc; simpa using hacc
  | cons p rest ih =>
    intro acc hacc b hb
    simp only [List.foldl_cons] at hb
    by_cases hz : p.MergedAt = goZeroTime
    · rw [if_pos hz] at hb
      exact ih acc hacc b hb
    · rw [if_neg hz] at hb
      exact ih _ (insertBucket_ne_nil _ _ _ _ acc hacc) b hb

theorem mem_aggregation_entry (key : GoTime → Int × Int) (sd ed : GoTime → GoTime)
    (prs : List PRMetrics) (a : AggregatedMetrics)
    (ha : a ∈ List.insertionSort (fun x y => periodLe x.Period y.Period)
      ((groupByPeriod key sd ed prs).map
        (fun b => calculateAggregatedMetrics b.key b.startDate b.endDate b.prs))) :
    ∃ b ∈ groupByPeriod key sd ed prs,
      a = calculateAggregatedMetrics b.key b.startDate b.endDate b.prs := by
  have hperm := List.perm_insertionSort (fun x y => periodLe x.Period y.Period)
    ((groupByPeriod key sd ed prs).map
      (fun b => calculateAggregatedMetrics b.key b.startDate b.endDate b.prs))
  have hmem := hperm.mem_iff.1 ha
  obtain ⟨b, hb, hba⟩ := List.mem_map.1 hmem
  exact ⟨b, hb, hba.symm⟩

/-- C10: every record emitted by the weekly or the monthly aggregation has
PRCount at least 1, because a bucket is created only when a merged PR is
appended to it. -/
theorem buckets_nonempty (prs : List PRMetrics) :
    (∀ a ∈ CalculateWeeklyAggregatedMetrics prs, 1 ≤ a.PRCount) ∧
    (∀ a ∈ CalculateMonthlyAggregatedMetrics prs, 1 ≤ a.PRCount) := by
  constructor
  · intro a ha
    obtain ⟨b, hb, rfl⟩ := mem_aggregation_entry _ _ _ _ _ ha
    rw [calcAgg_PRCount]
    have := groupByPeriod_ne_nil _ _ _ _ b hb
    have hpos : 0 < b.prs.length := List.length_pos.2 this
    omega
  · intro a ha
    obtain ⟨b, hb, rfl⟩ := mem_aggregation_entry _ _ _ _ _ ha
    rw [calcAgg_PRCount]
    have := groupByPeriod_ne_nil _ _ _ _ b hb
    have hpos : 0 < b.prs.length := List.length_pos.2 this
    omega

/-- C10 witness: aggregating one merged PR (merge hour 84) yields a first
weekly record with PRCount at least 1. -/
theorem buckets_nonempty_witness :
    1 ≤ ((CalculateWeeklyAggregatedMetrics [{ MergedAt := 84 }]).headD {}).PRCount := by
  have h := (buckets_nonempty [{ MergedAt := 84 }]).1
  exact h _ (List.Mem.head _)

theorem dayStart_mono {d e : Int} (h : d ≤ e) : dayStart d ≤ dayStart e := by
  unfold dayStart
  have : (d : ℚ) ≤ (e : ℚ) := by exact_mod_cast h
  linarith

theorem insertBucket_inv (key : GoTime → Int × Int) (sd ed : GoTime → GoTime)
    (t0 : GoTime) (pr : PRMetrics)
    (hz : ¬ pr.MergedAt = goZeroTime) (hk0 : key pr.MergedAt = key t0) :
    ∀ bs : List PeriodBucket, (∀ b ∈ bs, bucketInv key sd ed b) →
      ∀ b ∈ insertBucket (key t0) (sd t0) (ed t0) pr bs, bucketInv key sd ed b := by
  intro bs
  induction bs with
  | nil =>
    intro _ b hb
    simp only [insertBucket, List.mem_singleton] at hb
    subst hb
    refine ⟨⟨t0, rfl, rfl, rfl⟩, ?_⟩
    intro p hp
    simp only [List.mem_singleton] at hp
    subst hp
    exact ⟨hz, hk0⟩
  | cons b0 rest ih =>
    intro hall b hb
    simp only [insertBucket] at hb
    split_ifs at hb with hk
    · rcases List.mem_cons.1 hb with rfl | hmem
      · have hb0 := hall b0 (List.mem_cons_self _ _)
        refine ⟨hb0.1, ?_⟩
        intro p hp
        rcases List.mem_append.1 hp with hp | hp
        · exact hb0.2 p hp
        · simp only [List.mem_singleton] at hp
          subst hp
          exact ⟨hz, by rw [hk0, ← hk]⟩
      · exact hall b (List.mem_cons_of_mem _ hmem)
    · rcases List.mem_cons.1 hb with rfl | hmem
      · exact hall b (List.mem_cons_self _ _)
      · exact ih (fun b' hb' => hall b' (List.mem_cons_of_mem _ hb')) b hmem

theorem groupByPeriod_inv (key : GoTime → Int × Int) (sd ed : GoTime → GoTime)
    (prs : List PRMetrics) :
    ∀ b ∈ groupByPeriod key sd ed prs, bucketInv key sd ed b := by
  rw [groupByPeriod]
  suffices h : ∀ (l : List PRMetrics) (acc : List PeriodBucket),
      (∀ b ∈ acc, bucketInv key sd ed b) →
      ∀ b ∈ l.foldl (fun acc pr =>
        if pr.MergedAt = goZeroTime then acc
        else insertBucket (key pr.MergedAt) (sd pr.MergedAt) (ed pr.MergedAt) pr acc) acc,
        bucketInv key sd ed b by
    exact h prs [] (by simp)
  intro l
  induction l with
  | nil => intro acc hacc; simpa using hacc
  | cons p rest ih =>
    intro acc hacc b hb
    simp only [List.foldl_cons] at hb
    by_cases hz : p.MergedAt = goZeroTime
    · rw [if_pos hz] at hb
      exact ih acc hacc b hb
    · rw [if_neg hz] at hb
      exact ih _ (insertBucket_inv key sd ed p.MergedAt p hz rfl acc hacc) b hb

theorem getStartOfISOWeek_eq_of_isoWeek (s t : GoTime) (h : goISOWeek s = goISOWeek t) :
    getStartOfISOWeek s = getStartOfISOWeek t := by
  rw [getStartOfISOWeek_eq s, getStartOfISOWeek_eq t, goISOWeek_inj s t h]

theorem week_containment (t p : GoTime) (h : goISOWeek p = goISOWeek t) :
    getStartOfISOWeek t ≤ p ∧ p < (getStartOfISOWeek t + 24 * 6) + 24 := by
  rw [← getStartOfISOWeek_eq_of_isoWeek p t h, getStartOfISOWeek_eq p]
  obtain ⟨hlo, hhi⟩ := goDays_bounds p
  constructor
  · exact le_trans (dayStart_mono (by omega)) hlo
  · have h2 : dayStart (goDays p + 1) ≤
        dayStart (7 * ((goDays p - 4) / 7) + 4 + 7) := dayStart_mono (by omega)
    have h3 : dayStart (7 * ((goDays p - 4) / 7) + 4) + 24 * 6 + 24 =
        dayStart (7 * ((goDays p - 4) / 7) + 4 + 7) := by
      unfold dayStart
      push_cast
      ring
    linarith

theorem month_containment (t p : GoTime) (h : monthKey p = monthKey t) :
    monthStartDate t ≤ p ∧ p < monthEndDate t + 24 := by
  rw [monthStartDate, monthEndDate, ← h]
  obtain ⟨h1m, h12m, h1d, hlo, hhi⟩ := absDateDays_spec (goDays p)
  obtain ⟨hplo, hphi⟩ := goDays_bounds p
  simp only [monthKey]
  constructor
  · exact le_trans (dayStart_mono hlo) hplo
  · have h2 : dayStart (goDays p + 1) ≤
        dayStart (goDateDays (absDateDays (goDays p)).1
          ((absDateDays (goDays p)).2.1 + 1) 1) := dayStart_mono (by omega)
    have h3 : dayStart (goDateDays (absDateDays (goDays p)).1
          ((absDateDays (goDays p)).2.1 + 1) 1 - 1) + 24 =
        dayStart (goDateDays (absDateDays (goDays p)).1
          ((absDateDays (goDays p)).2.1 + 1) 1) := by
      unfold dayStart
      push_cast
      ring
    linarith

/-- C1 (amended): every weekly or monthly bucket holds only merged PRs
(non-zero merge timestamp), and each such PR's merge instant lies in the
half-open interval [StartDate, EndDate + 24h): it falls on a day between
StartDate and EndDate inclusive.  The closed bound "merge ≤ EndDate" of the
original claim fails, because EndDate is the midnight that begins the
bucket's final day (Sunday 00:00:00 resp. last-day-of-month 00:00:00). -/
theorem bucket_containment (prs : List PRMetrics) :
    (∀ b ∈ groupByPeriod goISOWeek weekStartDate weekEndDate prs, ∀ p ∈ b.prs,
      ¬ p.MergedAt = goZeroTime ∧
      b.startDate ≤ p.MergedAt ∧ p.MergedAt < b.endDate + 24) ∧
    (∀ b ∈ groupByPeriod monthKey monthStartDate monthEndDate prs, ∀ p ∈ b.prs,
      ¬ p.MergedAt = goZeroTime ∧
      b.startDate ≤ p.MergedAt ∧ p.MergedAt < b.endDate + 24) := by
  constructor
  · intro b hb p hp
    obtain ⟨⟨t, htk, hts, hte⟩, hall⟩ := groupByPeriod_inv _ _ _ prs b hb
    obtain ⟨hz, hkey⟩ := hall p hp
    have hsame : goISOWeek p.MergedAt = goISOWeek t := by rw [hkey, htk]
    have hc := week_containment t p.MergedAt hsame
    rw [hts, hte]
    exact ⟨hz, hc.1, hc.2⟩
  · intro b hb p hp
    obtain ⟨⟨t, htk, hts, hte⟩, hall⟩ := groupByPeriod_inv _ _ _ prs b hb
    obtain ⟨hz, hkey⟩ := hall p hp
    have hsame : monthKey p.MergedAt = monthKey t := by rw [hkey, htk]
    have hc := month_containment t p.MergedAt hsame
    rw [hts, hte]
    exact ⟨hz, hc.1, hc.2⟩

/-- C1 counterexample: a single PR merged on Sunday 1970-01-04 at 12:00
(hour 84) lands in the weekly bucket whose recorded EndDate is Sunday
00:00:00 (hour 72), so its merge timestamp does NOT lie within the closed
interval [StartDate, EndDate]: the closed-interval claim is false. -/
theorem bucket_containment_counterexample :
    groupByPeriod goISOWeek weekStartDate weekEndDate
        [({ MergedAt := 84 } : PRMetrics)] =
      [⟨goISOWeek 84, weekStartDate 84, weekEndDate 84, [{ MergedAt := 84 }]⟩] ∧
    ({ MergedAt := 84 } : PRMetrics) ∈
      (⟨goISOWeek 84, weekStartDate 84, weekEndDate 84,
        [{ MergedAt := 84 }]⟩ : PeriodBucket).prs ∧
    ¬ (({ MergedAt := 84 } : PRMetrics).MergedAt ≤
      (⟨goISOWeek 84, weekStartDate 84, weekEndDate 84,
        [{ MergedAt := 84 }]⟩ : PeriodBucket).endDate) := by
  refine ⟨rfl, List.Mem.head _, ?_⟩
  norm_num [weekEndDate, getStartOfISOWeek, goWeekday, goDays, dayStart]

/-- C1 witness: the same Sunday-noon PR satisfies the amended bounds:
StartDate (hour -72) ≤ merge (hour 84) < EndDate + 24h (hour 96). -/
theorem bucket_containment_witness :
    ¬ ({ MergedAt := 84 } : PRMetrics).MergedAt = goZeroTime ∧
    (⟨goISOWeek 84, weekStartDate 84, weekEndDate 84,
      [{ MergedAt := 84 }]⟩ : PeriodBucket).startDate ≤
      ({ MergedAt := 84 } : PRMetrics).MergedAt ∧
    ({ MergedAt := 84 } : PRMetrics).MergedAt <
      (⟨goISOWeek 84, weekStartDate 84, weekEndDate 84,
        [{ MergedAt := 84 }]⟩ : PeriodBucket).endDate + 24 :=
  (bucket_containment [{ MergedAt := 84 }]).1
    ⟨goISOWeek 84, weekStartDate 84, weekEndDate 84, [{ MergedAt := 84 }]⟩
    (List.Mem.head _) _ (List.Mem.head _)
